import Mathlib

/-!
Verification development for the resilient analysis orchestrator of
`daily_stock_analysis` (`src/analyzer.py`).

The Python module is shallowly embedded:

* JSON values (the result of Python `json.loads`) are the inductive `JValue`;
  JSON numbers are modelled as integers (the decision-dashboard schema only
  uses integer scores; float literals make the modelled decoder fail where
  Python would succeed, a restriction recorded at `parseNumber`).
* Python exceptions are reified: fallible code returns `Except String α`
  carrying `str(e)` of the raised exception.
* The external providers (`google.generativeai`, the OpenAI client) are an
  `Oracle`: for each model name and attempt index they either return a
  response text or raise with a message.  `time.sleep` has no observable
  effect on results and is not modelled.
* Python `str.lower` is modelled ASCII-wise (`Char.toLower`); every keyword
  the source compares against is ASCII or Chinese, which `lower` fixes.
-/

/-- A decoded JSON document: the result of Python `json.loads`.
Numbers are modelled as integers (see module comment). -/
inductive JValue where
  | null : JValue
  | bool (b : Bool) : JValue
  | num (n : Int) : JValue
  | str (s : String) : JValue
  | arr (elems : List JValue) : JValue
  | obj (fields : List (String × JValue)) : JValue
deriving Repr

/-- Python `dict.get(k)` for a dict built from a decoded JSON object:
later duplicate keys override earlier ones. -/
def pyDictGet (fields : List (String × JValue)) (k : String) : Option JValue :=
  fields.foldl (fun acc p => if p.1 = k then some p.2 else acc) none

/-- Python `dict.get(k, default)`. -/
def pyDictGetD (fields : List (String × JValue)) (k : String) (d : JValue) : JValue :=
  (pyDictGet fields k).getD d

/-- Python truthiness of a decoded JSON value (`None`, `False`, `0`, `""`,
`[]`, `{}` are falsy). -/
def jTruthy : JValue → Bool
  | .null => false
  | .bool b => b
  | .num n => n ≠ 0
  | .str s => s ≠ ""
  | .arr l => !l.isEmpty
  | .obj l => !l.isEmpty

/-- Python `int(str)` on a decoded string: optional surrounding whitespace,
optional sign, then a non-empty digit run (underscore separators are not
modelled).  `none` models the raised `ValueError`. -/
def pyIntOfStr (s : String) : Option Int :=
  let l := s.toList.dropWhile (fun c => c = ' ' ∨ c = '\t' ∨ c = '\n' ∨ c = '\r')
  let l := (l.reverse.dropWhile (fun c => c = ' ' ∨ c = '\t' ∨ c = '\n' ∨ c = '\r')).reverse
  let (neg, digits) :=
    match l with
    | '-' :: rest => (true, rest)
    | '+' :: rest => (false, rest)
    | rest => (false, rest)
  if digits.isEmpty ∨ ¬ digits.all Char.isDigit then none
  else
    let v : Int := digits.foldl (fun acc c => acc * 10 + (Int.ofNat (c.toNat - '0'.toNat))) 0
    some (if neg then -v else v)

/-- Python `int(x)` on a decoded JSON value.  `none` models the raised
`ValueError`/`TypeError` (e.g. `int('high')`, `int(None)`, `int([])`). -/
def pyInt : JValue → Option Int
  | .num n => some n
  | .bool b => some (if b then 1 else 0)
  | .str s => pyIntOfStr s
  | _ => none

/-- Substring test: Python `needle in hay` on strings, on character lists. -/
def subList (needle : List Char) : List Char → Bool
  | [] => needle.isEmpty
  | c :: rest => needle.isPrefixOf (c :: rest) || subList needle rest

/-- Python `needle in hay` on strings. -/
def strIn (needle hay : String) : Bool :=
  subList needle.toList hay.toList

/-- Python `s.lower()`, modelled ASCII-wise (see module comment). -/
def pyLower (s : String) : String :=
  String.mk (s.toList.map Char.toLower)

/-- Python `s.replace(pat, repl)` (all non-overlapping occurrences, left to
right), on character lists; the pattern is never empty at any call site.
The fuel argument (one unit per consumed character, seeded with the list
length) only makes the recursion structural; it never runs out. -/
def pyReplaceGo (pat repl : List Char) : Nat → List Char → List Char
  | _, [] => []
  | 0, l => l
  | fuel + 1, c :: cs =>
    match pat with
    | [] => c :: cs
    | _ :: _ =>
      if pat.isPrefixOf (c :: cs) then
        repl ++ pyReplaceGo pat repl fuel (cs.drop (pat.length - 1))
      else
        c :: pyReplaceGo pat repl fuel cs

/-- Python `s.replace(pat, repl)`. -/
def pyReplace (pat repl s : String) : String :=
  String.mk (pyReplaceGo pat.toList repl.toList s.toList.length s.toList)

/-- The character list after the first `'\n'` of `l`, if any. -/
def afterNewline (l : List Char) : Option (List Char) :=
  match l.dropWhile (fun c => c ≠ '\n') with
  | [] => none
  | _ :: rest => some rest

/-- `re.sub(r'//.*?\n', '\n', s)`: each `//` up to and including the next
newline is replaced by a newline (`.` does not match `'\n'`, so the
non-greedy run always stops at the first newline); a `//` with no following
newline does not match, and then no later occurrence can match either. -/
def subLineCommentGo : Nat → List Char → List Char
  | _, [] => []
  | 0, l => l
  | fuel + 1, '/' :: '/' :: rest =>
    match afterNewline rest with
    | some after => '\n' :: subLineCommentGo fuel after
    | none => '/' :: '/' :: rest
  | fuel + 1, c :: rest => c :: subLineCommentGo fuel rest

/-- Entry point for the line-comment substitution. -/
def subLineComment (l : List Char) : List Char :=
  subLineCommentGo l.length l

/-- The character list after the first `*/` of `l`, if any. -/
def afterBlockClose : List Char → Option (List Char)
  | [] => none
  | [_] => none
  | c :: c2 :: rest =>
    if c = '*' ∧ c2 = '/' then some rest else afterBlockClose (c2 :: rest)

/-- `re.sub(r'/\*.*?\*/', '', s, flags=re.DOTALL)`: each `/*` up to and
including the next `*/` is removed; a `/*` with no following `*/` does not
match, and then no later occurrence can match either. -/
def subBlockCommentGo : Nat → List Char → List Char
  | _, [] => []
  | 0, l => l
  | fuel + 1, '/' :: '*' :: rest =>
    match afterBlockClose rest with
    | some after => subBlockCommentGo fuel after
    | none => '/' :: '*' :: rest
  | fuel + 1, c :: rest => c :: subBlockCommentGo fuel rest

/-- Entry point for the block-comment substitution. -/
def subBlockComment (l : List Char) : List Char :=
  subBlockCommentGo l.length l

/-- Python's `\s` character class (ASCII part). -/
def isPySpace (c : Char) : Bool :=
  c = ' ' ∨ c = '\t' ∨ c = '\n' ∨ c = '\r' ∨ c = '\x0b' ∨ c = '\x0c'

/-- `re.sub(r',\s*X', 'X', s)` for a closing bracket `X` (the source applies
it for `'}'` and for `']'`): a comma followed by optional whitespace and the
bracket collapses to the bracket. -/
def subTrailingCommaGo (close : Char) : Nat → List Char → List Char
  | _, [] => []
  | 0, l => l
  | fuel + 1, c :: rest =>
    if c = ',' then
      match rest.dropWhile isPySpace with
      | c2 :: r2 =>
        if c2 = close then close :: subTrailingCommaGo close fuel r2
        else c :: subTrailingCommaGo close fuel rest
      | [] => c :: subTrailingCommaGo close fuel rest
    else
      c :: subTrailingCommaGo close fuel rest

/-- Entry point for the trailing-comma substitution. -/
def subTrailingComma (close : Char) (l : List Char) : List Char :=
  subTrailingCommaGo close l.length l

/-- JSON whitespace accepted by Python `json.loads` between tokens. -/
def skipWs (l : List Char) : List Char :=
  l.dropWhile (fun c => c = ' ' ∨ c = '\t' ∨ c = '\n' ∨ c = '\r')

/-- Value of a hex digit, for `\uXXXX` string escapes. -/
def hexVal (c : Char) : Option Nat :=
  if '0' ≤ c ∧ c ≤ '9' then some (c.toNat - '0'.toNat)
  else if 'a' ≤ c ∧ c ≤ 'f' then some (c.toNat - 'a'.toNat + 10)
  else if 'A' ≤ c ∧ c ≤ 'F' then some (c.toNat - 'A'.toNat + 10)
  else none

/-- JSON string body after the opening quote: returns the decoded characters
and the remainder after the closing quote.  Strict mode: raw control
characters are rejected.  Surrogate pairs are not modelled: a surrogate
escape makes the decode fail. -/
def parseJStrGo : Nat → List Char → Option (List Char × List Char)
  | _, [] => none
  | 0, _ => none
  | fuel + 1, c :: rest =>
    if c = '"' then some ([], rest)
    else if c = '\\' then
      match rest with
      | [] => none
      | e :: rest2 =>
        if e = 'u' then
          match rest2 with
          | h1 :: h2 :: h3 :: h4 :: rest3 =>
            match hexVal h1, hexVal h2, hexVal h3, hexVal h4 with
            | some a, some b, some c', some d =>
              let n := ((a * 16 + b) * 16 + c') * 16 + d
              if n < 0xD800 ∨ 0xDFFF < n then
                (fun p => (Char.ofNat n :: p.1, p.2)) <$> parseJStrGo fuel rest3
              else none
            | _, _, _, _ => none
          | _ => none
        else
          match
            (if e = '"' then some '"'
             else if e = '\\' then some '\\'
             else if e = '/' then some '/'
             else if e = 'b' then some '\x08'
             else if e = 'f' then some '\x0c'
             else if e = 'n' then some '\n'
             else if e = 'r' then some '\r'
             else if e = 't' then some '\t'
             else none) with
          | some d => (fun p => (d :: p.1, p.2)) <$> parseJStrGo fuel rest2
          | none => none
    else if c.toNat < 0x20 then none
    else (fun p => (c :: p.1, p.2)) <$> parseJStrGo fuel rest

/-- Entry point for JSON string bodies. -/
def parseJStr (l : List Char) : Option (List Char × List Char) :=
  parseJStrGo l.length l

/-- JSON integer literal (optional minus, no leading zeros).  Float literals
(`.`/`e`) are not modelled: they make the decode fail (module comment). -/
def parseJNum (l : List Char) : Option (Int × List Char) :=
  let (neg, l1) := match l with | '-' :: r => (true, r) | _ => (false, l)
  let digits := l1.takeWhile Char.isDigit
  let rest := l1.drop digits.length
  if digits.isEmpty then none
  else if digits.head? = some '0' ∧ digits.length > 1 then none
  else
    match rest with
    | '.' :: _ => none
    | 'e' :: _ => none
    | 'E' :: _ => none
    | _ =>
      let v : Int := digits.foldl (fun acc c => acc * 10 + Int.ofNat (c.toNat - '0'.toNat)) 0
      some (if neg then -v else v, rest)

mutual

/-- One JSON value, fueled; model of the recursive descent in Python
`json.loads`. -/
def parseJVal : Nat → List Char → Option (JValue × List Char)
  | 0, _ => none
  | fuel + 1, l =>
    match skipWs l with
    | [] => none
    | c :: rest =>
      if c = '{' then
        match skipWs rest with
        | '}' :: r2 => some (.obj [], r2)
        | l2 => (fun p => (JValue.obj p.1, p.2)) <$> parseJMembers fuel l2
      else if c = '[' then
        match skipWs rest with
        | ']' :: r2 => some (.arr [], r2)
        | l2 => (fun p => (JValue.arr p.1, p.2)) <$> parseJElems fuel l2
      else if c = '"' then
        (fun p => (JValue.str (String.mk p.1), p.2)) <$> parseJStr rest
      else if c = 't' then
        if rest.take 3 = ['r', 'u', 'e'] then some (.bool true, rest.drop 3) else none
      else if c = 'f' then
        if rest.take 4 = ['a', 'l', 's', 'e'] then some (.bool false, rest.drop 4) else none
      else if c = 'n' then
        if rest.take 3 = ['u', 'l', 'l'] then some (.null, rest.drop 3) else none
      else
        (fun p => (JValue.num p.1, p.2)) <$> parseJNum (c :: rest)

/-- Non-empty member list of a JSON object, up to and including the `}`. -/
def parseJMembers : Nat → List Char → Option (List (String × JValue) × List Char)
  | 0, _ => none
  | fuel + 1, l =>
    match skipWs l with
    | '"' :: rest =>
      match parseJStr rest with
      | none => none
      | some (key, r1) =>
        match skipWs r1 with
        | ':' :: r2 =>
          match parseJVal fuel r2 with
          | none => none
          | some (v, r3) =>
            match skipWs r3 with
            | ',' :: r4 =>
              (fun p => ((String.mk key, v) :: p.1, p.2)) <$> parseJMembers fuel r4
            | '}' :: r4 => some ([(String.mk key, v)], r4)
            | _ => none
        | _ => none
    | _ => none

/-- Non-empty element list of a JSON array, up to and including the `]`. -/
def parseJElems : Nat → List Char → Option (List JValue × List Char)
  | 0, _ => none
  | fuel + 1, l =>
    match parseJVal fuel l with
    | none => none
    | some (v, r1) =>
      match skipWs r1 with
      | ',' :: r2 => (fun p => (v :: p.1, p.2)) <$> parseJElems fuel r2
      | ']' :: r2 => some ([v], r2)
      | _ => none

end

/-- Model of Python `json.loads`: the whole input must be consumed (modulo
trailing whitespace), otherwise a `JSONDecodeError` is raised (`none`). -/
def pyJsonLoads (s : String) : Option JValue :=
  match parseJVal (s.length + 1) s.toList with
  | some (v, rest) => if (skipWs rest).isEmpty then some v else none
  | none => none

/-- Python `s.find(c)` restricted to a found index (`-1` is represented by
`none`). -/
def firstIdx (c : Char) : List Char → Option Nat
  | [] => none
  | x :: rest => if x = c then some 0 else (firstIdx c rest).map (· + 1)

/-- Python `s.rfind(c)` restricted to a found index (`-1` is `none`). -/
def lastIdx (c : Char) (l : List Char) : Option Nat :=
  (firstIdx c l.reverse).map (fun i => l.length - 1 - i)

/-- Model of the third-party `json_repair.repair_json`.  On input that
already decodes, the library parses and re-serialises it, preserving the
decoded value; this is modelled as the identity.  Its best-effort output on
undecodable input is a documented open question of the spec (§9) and is
also modelled as the identity, so the subsequent `json.loads` fails exactly
when the pre-repair text fails to decode. -/
def repairJson (s : String) : String := s

/-- `GeminiAnalyzer._fix_json_string` (src/analyzer.py:1227-1245): strip
`//` and `/* */` comments, collapse trailing commas before `}`/`]`,
lowercase Python-style booleans, then run the third-party repair. -/
def fixJsonString (jsonStr : String) : String :=
  let s1 := String.mk (subLineComment jsonStr.toList)
  let s2 := String.mk (subBlockComment s1.toList)
  let s3 := String.mk (subTrailingComma '}' s2.toList)
  let s4 := String.mk (subTrailingComma ']' s3.toList)
  let s5 := pyReplace "True" "true" s4
  let s6 := pyReplace "False" "false" s5
  repairJson s6

/-- The cleaning and bracket-location part of
`GeminiAnalyzer._parse_response` (src/analyzer.py:1140-1153): strip
markdown code-fence markers, then slice from the first `{` to the last `}`;
`none` when Python's `json_start >= 0 and json_end > json_start` guard
fails. -/
def extractJsonStr (responseText : String) : Option String :=
  let cleaned :=
    if strIn "```json" responseText then
      pyReplace "```" "" (pyReplace "```json" "" responseText)
    else if strIn "```" responseText then
      pyReplace "```" "" responseText
    else responseText
  let l := cleaned.toList
  match firstIdx '{' l, lastIdx '}' l with
  | some i, some j =>
    if j + 1 > i then some (String.mk ((l.drop i).take (j + 1 - i))) else none
  | _, _ => none

/-- The decoded document `_parse_response` works on, when the strict stage
succeeds: extraction, textual fixes, then `json.loads`. -/
def decodedDoc (responseText : String) : Option JValue :=
  (extractJsonStr responseText).bind (fun js => pyJsonLoads (fixJsonString js))

/-- The `AnalysisResult` dataclass (src/analyzer.py:151-203).  Fields filled
from a decoded document hold whatever decoded value the document carried
(Python performs no type enforcement), hence `JValue`; `sentiment_score` is
always the result of `int(...)`, hence `Int`.  Defaults mirror the
dataclass defaults. -/
structure AnalysisResult where
  code : String
  name : JValue
  sentiment_score : Int
  trend_prediction : JValue
  operation_advice : JValue
  decision_type : JValue := .str "hold"
  confidence_level : JValue := .str "中"
  dashboard : Option JValue := none
  trend_analysis : JValue := .str ""
  short_term_outlook : JValue := .str ""
  medium_term_outlook : JValue := .str ""
  technical_analysis : JValue := .str ""
  ma_analysis : JValue := .str ""
  volume_analysis : JValue := .str ""
  pattern_analysis : JValue := .str ""
  fundamental_analysis : JValue := .str ""
  sector_position : JValue := .str ""
  company_highlights : JValue := .str ""
  news_summary : JValue := .str ""
  market_sentiment : JValue := .str ""
  hot_topics : JValue := .str ""
  analysis_summary : JValue := .str ""
  key_points : JValue := .str ""
  risk_warning : JValue := .str ""
  buy_reason : JValue := .str ""
  raw_response : Option String := none
  search_performed : JValue := .bool false
  data_sources : JValue := .str ""
  success : Bool := true
  error_message : Option String := none
deriving Repr

/-- The advice values mapped to `decision_type = 'buy'`
(src/analyzer.py:1173). -/
def buyAdvices : List String := ["买入", "加仓", "强烈买入"]

/-- The advice values mapped to `decision_type = 'sell'`
(src/analyzer.py:1175). -/
def sellAdvices : List String := ["卖出", "减仓", "强烈卖出"]

/-- Python `op in [...]` where the list holds strings and `op` is a decoded
value. -/
def adviceIn (op : JValue) (l : List String) : Bool :=
  match op with
  | .str s => l.contains s
  | _ => false

/-- The `AnalysisResult(...)` construction of `_parse_response`
(src/analyzer.py:1160-1217) given the decoded object fields and the already
coerced score: dashboard and every narrative field are copied from the
document via `data.get` with the dataclass-visible defaults; `stock_name`
overrides the caller's name only when the caller's name is a placeholder;
`decision_type` is derived from `operation_advice` when absent or falsy. -/
def mkParsedResult (fs : List (String × JValue)) (code name : String) (score : Int) :
    AnalysisResult :=
  let aiName := pyDictGet fs "stock_name"
  let name' : JValue :=
    match aiName with
    | some v =>
      if jTruthy v ∧ (name.startsWith "股票" ∨ name = code ∨ strIn "Unknown" name)
      then v else .str name
    | none => .str name
  let decision0 := pyDictGetD fs "decision_type" (.str "")
  let decision : JValue :=
    if jTruthy decision0 then decision0
    else
      let op := pyDictGetD fs "operation_advice" (.str "持有")
      if adviceIn op buyAdvices then .str "buy"
      else if adviceIn op sellAdvices then .str "sell"
      else .str "hold"
  { code := code
    name := name'
    sentiment_score := score
    trend_prediction := pyDictGetD fs "trend_prediction" (.str "震荡")
    operation_advice := pyDictGetD fs "operation_advice" (.str "持有")
    decision_type := decision
    confidence_level := pyDictGetD fs "confidence_level" (.str "中")
    dashboard :=
      match pyDictGet fs "dashboard" with
      | some .null => none
      | some v => some v
      | none => none
    trend_analysis := pyDictGetD fs "trend_analysis" (.str "")
    short_term_outlook := pyDictGetD fs "short_term_outlook" (.str "")
    medium_term_outlook := pyDictGetD fs "medium_term_outlook" (.str "")
    technical_analysis := pyDictGetD fs "technical_analysis" (.str "")
    ma_analysis := pyDictGetD fs "ma_analysis" (.str "")
    volume_analysis := pyDictGetD fs "volume_analysis" (.str "")
    pattern_analysis := pyDictGetD fs "pattern_analysis" (.str "")
    fundamental_analysis := pyDictGetD fs "fundamental_analysis" (.str "")
    sector_position := pyDictGetD fs "sector_position" (.str "")
    company_highlights := pyDictGetD fs "company_highlights" (.str "")
    news_summary := pyDictGetD fs "news_summary" (.str "")
    market_sentiment := pyDictGetD fs "market_sentiment" (.str "")
    hot_topics := pyDictGetD fs "hot_topics" (.str "")
    analysis_summary := pyDictGetD fs "analysis_summary" (.str "分析完成")
    key_points := pyDictGetD fs "key_points" (.str "")
    risk_warning := pyDictGetD fs "risk_warning" (.str "")
    buy_reason := pyDictGetD fs "buy_reason" (.str "")
    search_performed := pyDictGetD fs "search_performed" (.bool false)
    data_sources := pyDictGetD fs "data_sources" (.str "技术面数据")
    success := true }

/-- The structured-document branch of `_parse_response`: Python evaluates
`int(data.get('sentiment_score', 50))`, whose `ValueError`/`TypeError` is
NOT caught by the surrounding `except json.JSONDecodeError` and therefore
propagates (`Except.error`); likewise `data.get` on a non-dict decode
raises `AttributeError`. -/
def buildResult (data : JValue) (code name : String) : Except String AnalysisResult :=
  match data with
  | .obj fs =>
    match pyInt (pyDictGetD fs "sentiment_score" (.num 50)) with
    | some score => .ok (mkParsedResult fs code name score)
    | none => .error "invalid literal for int() on sentiment_score"
  | _ => .error "'str' object has no attribute 'get'"

/-- Keyword list scanned for positive sentiment
(src/analyzer.py:1262). -/
def positiveKeywords : List String :=
  ["看多", "买入", "上涨", "突破", "强势", "利好", "加仓", "bullish", "buy"]

/-- Keyword list scanned for negative sentiment
(src/analyzer.py:1263). -/
def negativeKeywords : List String :=
  ["看空", "卖出", "下跌", "跌破", "弱势", "利空", "减仓", "bearish", "sell"]

/-- `sum(1 for kw in positive_keywords if kw in text_lower)`. -/
def positiveCount (responseText : String) : Nat :=
  (positiveKeywords.filter (fun kw => strIn kw (pyLower responseText))).length

/-- `sum(1 for kw in negative_keywords if kw in text_lower)`. -/
def negativeCount (responseText : String) : Nat :=
  (negativeKeywords.filter (fun kw => strIn kw (pyLower responseText))).length

/-- `GeminiAnalyzer._parse_text_response` (src/analyzer.py:1247-1297): the
keyword-heuristic fallback.  Never raises. -/
def parseTextResponse (responseText code name : String) : AnalysisResult :=
  let pos := positiveCount responseText
  let neg := negativeCount responseText
  let scoreTrendAdvice : Int × String × String × String :=
    if pos > neg + 1 then (65, "看多", "买入", "buy")
    else if neg > pos + 1 then (35, "看空", "卖出", "sell")
    else (50, "震荡", "持有", "hold")
  let summary : String :=
    if responseText = "" then "无分析结果"
    else String.mk (responseText.toList.take 500)
  { code := code
    name := .str name
    sentiment_score := scoreTrendAdvice.1
    trend_prediction := .str scoreTrendAdvice.2.1
    operation_advice := .str scoreTrendAdvice.2.2.1
    decision_type := .str scoreTrendAdvice.2.2.2
    confidence_level := .str "低"
    analysis_summary := .str summary
    key_points := .str "JSON解析失败，仅供参考"
    risk_warning := .str "分析结果可能不准确，建议结合其他信息判断"
    raw_response := some responseText
    success := true }

/-- `GeminiAnalyzer._parse_response` (src/analyzer.py:1128-1225): extract a
`{...}` region, fix it, decode it; `json.JSONDecodeError` (or no region) is
absorbed into `_parse_text_response`; any other exception — in particular
the `int()` coercion failure inside the structured branch — propagates. -/
def parseResponse (responseText code name : String) : Except String AnalysisResult :=
  match extractJsonStr responseText with
  | some js =>
    match pyJsonLoads (fixJsonString js) with
    | some data => buildResult data code name
    | none => .ok (parseTextResponse responseText code name)
  | none => .ok (parseTextResponse responseText code name)

/-- The configuration fields `analyzer.py` reads (src/config.py:51-64).
`openai_api_key`/`openai_base_url` are `Optional[str]`; the empty string
models the unset/falsy case (both `None` and `''` are falsy wherever the
source tests them). -/
structure AppConfig where
  geminiModel : String := "gemini-3-flash-preview"
  geminiModelFallback : String := "gemini-2.5-flash"
  geminiMaxRetries : Nat := 5
  geminiRetryDelay : ℚ := 5
  openaiApiKey : String := ""
  openaiBaseUrl : String := ""
  openaiModel : String := "gpt-4o-mini"

/-- The backoff computed before retry `attempt` (1-based) in
`GeminiAnalyzer._call_api_with_retry` (src/analyzer.py:738-739):
`delay = base_delay * (2 ** (attempt - 1)); delay = min(delay, 60)`. -/
def geminiBackoff (baseDelay : ℚ) (attempt : Nat) : ℚ :=
  min (baseDelay * 2 ^ (attempt - 1)) 60

/-- The identical backoff in `GeminiAnalyzer._call_openai_api`
(src/analyzer.py:670-671). -/
def openaiBackoff (baseDelay : ℚ) (attempt : Nat) : ℚ :=
  min (baseDelay * 2 ^ (attempt - 1)) 60

/-- The mutable provider-selection state living on the `GeminiAnalyzer`
instance: `self._model` (here: whether it is set, plus
`self._current_model_name`), `self._using_fallback`, `self._use_openai`,
`self._openai_client` (whether it is set). -/
structure AnalyzerState where
  hasModel : Bool
  currentModelName : String
  usingFallback : Bool
  useOpenai : Bool
  hasOpenaiClient : Bool
deriving Repr, DecidableEq

/-- One provider call either returns a response object whose text is `t`
(possibly empty), or raises an exception rendered as `msg`. -/
inductive CallOutcome where
  | text (t : String) : CallOutcome
  | exn (msg : String) : CallOutcome

/-- The external world: for each (model name, attempt index) what the
Gemini SDK and the OpenAI client do, and whether the model/client
constructors used by `_switch_to_fallback_model` and
`_init_openai_fallback` succeed. -/
structure Oracle where
  gemini : String → Nat → CallOutcome
  openai : String → Nat → CallOutcome
  switchOk : Bool
  openaiCtorOk : Bool

/-- The rate-limit classification applied to `str(e)`
(src/analyzer.py:759, 693): `'429' in s or 'quota' in s.lower() or
'rate' in s.lower()`. -/
def isRateLimited (msg : String) : Bool :=
  strIn "429" msg || strIn "quota" (pyLower msg) || strIn "rate" (pyLower msg)

/-- The OpenAI key validity filter of `_init_openai_fallback`
(src/analyzer.py:537-541). -/
def openaiKeyValid (cfg : AppConfig) : Bool :=
  cfg.openaiApiKey ≠ "" && !cfg.openaiApiKey.startsWith "your_"
    && cfg.openaiApiKey.length > 10

/-- `GeminiAnalyzer._init_openai_fallback` (src/analyzer.py:524-575): on a
valid key and successful client construction it sets `_openai_client`,
`_current_model_name = openai_model` and `_use_openai = True`; otherwise it
leaves the state unchanged. -/
def initOpenaiFallback (cfg : AppConfig) (o : Oracle) (s : AnalyzerState) : AnalyzerState :=
  if openaiKeyValid cfg && o.openaiCtorOk then
    { s with hasOpenaiClient := true, currentModelName := cfg.openaiModel, useOpenai := true }
  else s

/-- `GeminiAnalyzer._switch_to_fallback_model` (src/analyzer.py:623-646):
on success replaces `self._model` with the fallback model and records
`_using_fallback`; on constructor failure returns the state unchanged
(the method returns `False`). -/
def switchToFallbackModel (cfg : AppConfig) (o : Oracle) (s : AnalyzerState) :
    AnalyzerState × Bool :=
  if o.switchOk then
    ({ s with hasModel := true, currentModelName := cfg.geminiModelFallback,
              usingFallback := true }, true)
  else (s, false)

/-- The loop body of `GeminiAnalyzer._call_openai_api`
(src/analyzer.py:652-703), with `fuel = max_retries - attempt`.  An empty
response raises `ValueError('OpenAI API 返回空响应')`; at the last attempt
the caught exception is re-raised; an exhausted `range(0)` loop falls
through to the final `raise`. -/
def callOpenaiGo (maxRetries : Nat) (o : Oracle) (model : String) :
    Nat → Nat → Except String String
  | 0, _ => .error "OpenAI API 调用失败，已达最大重试次数"
  | fuel + 1, attempt =>
    let failWith : String → Except String String := fun msg =>
      if attempt = maxRetries - 1 then .error msg
      else callOpenaiGo maxRetries o model fuel (attempt + 1)
    match o.openai model attempt with
    | .text t => if t ≠ "" then .ok t else failWith "OpenAI API 返回空响应"
    | .exn m => failWith m

/-- `GeminiAnalyzer._call_openai_api`. -/
def callOpenaiApi (cfg : AppConfig) (o : Oracle) (model : String) : Except String String :=
  callOpenaiGo cfg.geminiMaxRetries o model cfg.geminiMaxRetries 0

/-- Result of one `_call_api_with_retry` invocation: the returned text or
the raised exception, the instance state after the call, and the list of
(model name, attempt index) pairs attempted inside the Gemini loop. -/
structure RunResult where
  result : Except String String
  state : AnalyzerState
  trace : List (String × Nat)
deriving Repr

/-- The code after the Gemini retry loop of `_call_api_with_retry`
(src/analyzer.py:775-795): try an existing OpenAI client, else lazily
initialise one when both OpenAI settings are truthy, else raise
`last_error or Exception('所有 AI API 调用失败，已达最大重试次数')`. -/
def afterGeminiLoop (cfg : AppConfig) (o : Oracle) (s : AnalyzerState)
    (lastError : Option String) (tr : List (String × Nat)) : RunResult :=
  if s.hasOpenaiClient then
    match callOpenaiApi cfg o s.currentModelName with
    | .ok t => ⟨.ok t, s, tr⟩
    | .error oe => ⟨.error (lastError.getD oe), s, tr⟩
  else if cfg.openaiApiKey ≠ "" ∧ cfg.openaiBaseUrl ≠ "" then
    if (initOpenaiFallback cfg o s).hasOpenaiClient then
      match callOpenaiApi cfg o (initOpenaiFallback cfg o s).currentModelName with
      | .ok t => ⟨.ok t, initOpenaiFallback cfg o s, tr⟩
      | .error oe => ⟨.error (lastError.getD oe), initOpenaiFallback cfg o s, tr⟩
    else ⟨.error (lastError.getD "所有 AI API 调用失败，已达最大重试次数"),
          initOpenaiFallback cfg o s, tr⟩
  else ⟨.error (lastError.getD "所有 AI API 调用失败，已达最大重试次数"), s, tr⟩

/-- The Gemini retry loop of `_call_api_with_retry`
(src/analyzer.py:734-773), with `fuel = max_retries - attempt`.  An empty
response raises `ValueError('Gemini 返回空响应')`; every failure is stored
in `last_error`; a rate-limited failure at `attempt >= max_retries // 2`
with the fallback not yet tried attempts `_switch_to_fallback_model`.
Calling `generate_content` on a `None` model raises `AttributeError`. -/
def geminiGo (cfg : AppConfig) (o : Oracle) :
    Nat → Nat → AnalyzerState → Bool → Option String → List (String × Nat) → RunResult
  | 0, _, s, _, lastError, tr => afterGeminiLoop cfg o s lastError tr
  | fuel + 1, attempt, s, triedFallback, lastError, tr =>
    match (if s.hasModel then o.gemini s.currentModelName attempt
           else .exn "'NoneType' object has no attribute 'generate_content'") with
    | .text t =>
      if t ≠ "" then ⟨.ok t, s, tr ++ [(s.currentModelName, attempt)]⟩
      else geminiGo cfg o fuel (attempt + 1) s triedFallback (some "Gemini 返回空响应")
             (tr ++ [(s.currentModelName, attempt)])
    | .exn m =>
      if isRateLimited m ∧ attempt ≥ cfg.geminiMaxRetries / 2 ∧ triedFallback = false then
        geminiGo cfg o fuel (attempt + 1) (switchToFallbackModel cfg o s).1
          (triedFallback || (switchToFallbackModel cfg o s).2) (some m)
          (tr ++ [(s.currentModelName, attempt)])
      else
        geminiGo cfg o fuel (attempt + 1) s triedFallback (some m)
          (tr ++ [(s.currentModelName, attempt)])

/-- `GeminiAnalyzer._call_api_with_retry` (src/analyzer.py:705-795).
`tried_fallback` starts from the persisted `self._using_fallback`. -/
def callApiWithRetry (cfg : AppConfig) (o : Oracle) (s : AnalyzerState) : RunResult :=
  if s.useOpenai then ⟨callOpenaiApi cfg o s.currentModelName, s, []⟩
  else geminiGo cfg o cfg.geminiMaxRetries 0 s s.usingFallback none []

/-- The static `STOCK_NAME_MAP` (src/analyzer.py:34-88). -/
def STOCK_NAME_MAP : List (String × String) :=
  [("600519", "贵州茅台"), ("000001", "平安银行"), ("300750", "宁德时代"),
   ("002594", "比亚迪"), ("600036", "招商银行"), ("601318", "中国平安"),
   ("000858", "五粮液"), ("600276", "恒瑞医药"), ("601012", "隆基绿能"),
   ("002475", "立讯精密"), ("300059", "东方财富"), ("002415", "海康威视"),
   ("600900", "长江电力"), ("601166", "兴业银行"), ("600028", "中国石化"),
   ("AAPL", "苹果"), ("TSLA", "特斯拉"), ("MSFT", "微软"), ("GOOGL", "谷歌A"),
   ("GOOG", "谷歌C"), ("AMZN", "亚马逊"), ("NVDA", "英伟达"), ("META", "Meta"),
   ("AMD", "AMD"), ("INTC", "英特尔"), ("BABA", "阿里巴巴"), ("PDD", "拼多多"),
   ("JD", "京东"), ("BIDU", "百度"), ("NIO", "蔚来"), ("XPEV", "小鹏汽车"),
   ("LI", "理想汽车"), ("COIN", "Coinbase"), ("MSTR", "MicroStrategy"),
   ("00700", "腾讯控股"), ("03690", "美团"), ("01810", "小米集团"),
   ("09988", "阿里巴巴"), ("09618", "京东集团"), ("09888", "百度集团"),
   ("01024", "快手"), ("00981", "中芯国际"), ("02015", "理想汽车"),
   ("09868", "小鹏汽车"), ("00005", "汇丰控股"), ("01299", "友邦保险"),
   ("00941", "中国移动"), ("00883", "中国海洋石油")]

/-- `STOCK_NAME_MAP.get(code, default)`. -/
def stockMapGet (code : String) (dflt : String) : String :=
  match STOCK_NAME_MAP.find? (fun p => p.1 = code) with
  | some p => p.2
  | none => dflt

/-- The parts of the analysis context dictionary that `analyze` reads:
`context.get('code', 'Unknown')`, `context.get('stock_name')` and
`context['realtime'].get('name')` (the latter `none` when the `realtime`
key is absent or the nested name is falsy-or-absent is distinguished by
`some ""`). -/
structure AnalysisContext where
  code : Option String := none
  stockName : Option String := none
  realtimeName : Option String := none

/-- The stock-name resolution at the top of `analyze`
(src/analyzer.py:827-835). -/
def resolveName (ctx : AnalysisContext) (code : String) : String :=
  let fromRealtime : String :=
    match ctx.realtimeName with
    | some r => if r ≠ "" then r else stockMapGet code ("股票" ++ code)
    | none => stockMapGet code ("股票" ++ code)
  match ctx.stockName with
  | some s => if s ≠ "" ∧ ¬ s.startsWith "股票" then s else fromRealtime
  | none => fromRealtime

/-- `GeminiAnalyzer.is_available` (src/analyzer.py:648-650). -/
def isAvailable (s : AnalyzerState) : Bool :=
  s.hasModel || s.hasOpenaiClient

/-- The degraded result returned when no API is configured
(src/analyzer.py:838-850). -/
def unavailableResult (code name : String) : AnalysisResult :=
  { code := code
    name := .str name
    sentiment_score := 50
    trend_prediction := .str "震荡"
    operation_advice := .str "持有"
    confidence_level := .str "低"
    analysis_summary := .str "AI 分析功能未启用（未配置 API Key）"
    risk_warning := .str "请配置 Gemini API Key 后重试"
    success := false
    error_message := some "Gemini API Key 未配置" }

/-- The degraded result built by the catch-all `except` of `analyze`
(src/analyzer.py:906-919): `error_message = str(e)` and the summary embeds
`str(e)[:100]`. -/
def exceptionResult (code name msg : String) : AnalysisResult :=
  { code := code
    name := .str name
    sentiment_score := 50
    trend_prediction := .str "震荡"
    operation_advice := .str "持有"
    confidence_level := .str "低"
    analysis_summary := .str ("分析过程出错: " ++ String.mk (msg.toList.take 100))
    risk_warning := .str "分析失败，请稍后重试或手动分析"
    success := false
    error_message := some msg }

/-- `GeminiAnalyzer.analyze` (src/analyzer.py:797-919).  Everything inside
the `try` — the provider cascade and the response parsing — is guarded by
`except Exception`, which converts any raised exception into
`exceptionResult`; the function also returns the value of the mutable
instance state after the call (Python mutates `self` in place). -/
def analyze (cfg : AppConfig) (o : Oracle) (s : AnalyzerState)
    (ctx : AnalysisContext) (newsContext : Option String) :
    AnalysisResult × AnalyzerState :=
  let code := ctx.code.getD "Unknown"
  let name := resolveName ctx code
  if ¬ isAvailable s then (unavailableResult code name, s)
  else
    match callApiWithRetry cfg o s with
    | ⟨.ok responseText, s', _⟩ =>
      match parseResponse responseText code name with
      | .ok r =>
        ({ r with raw_response := some responseText
                  search_performed := .bool (newsContext.getD "" ≠ "") }, s')
      | .error m => (exceptionResult code name m, s')
    | ⟨.error m, s', _⟩ => (exceptionResult code name m, s')

/-- `GeminiAnalyzer.batch_analyze` (src/analyzer.py:1299-1326): sequential
`analyze` calls on one instance, threading the shared mutable state. -/
def batchAnalyze (cfg : AppConfig) (o : Oracle) (s : AnalyzerState)
    (ctxs : List AnalysisContext) : List AnalysisResult × AnalyzerState :=
  match ctxs with
  | [] => ([], s)
  | ctx :: rest =>
    let (r, s') := analyze cfg o s ctx none
    let (rs, s'') := batchAnalyze cfg o s' rest
    (r :: rs, s'')

/-- Projection helper: the payload of a successful parse. -/
def okResult : Except String AnalysisResult → Option AnalysisResult
  | .ok r => some r
  | .error _ => none

/-- Whether the parse raised (propagated an exception). -/
def isParseError : Except String AnalysisResult → Bool
  | .ok _ => false
  | .error _ => true

/-- Whether the decoded document's `sentiment_score` field survives
Python's `int(...)` coercion (and the document is a dict at all). -/
def scoreCoercible : JValue → Bool
  | .obj fs => (pyInt (pyDictGetD fs "sentiment_score" (.num 50))).isSome
  | _ => false

/-- Modelled from the spec: the well-formed nested dashboard shape of §3 —
"optional structured dashboard sub-document (nested sections: core
conclusion, data perspective, intelligence, battle plan)".  Used only to
compare the spec's acceptance condition with what the code does. -/
def specDashboardWellFormed : JValue → Bool
  | .obj fs =>
    ["core_conclusion", "data_perspective", "intelligence", "battle_plan"].all
      (fun k => match pyDictGet fs k with | some (.obj _) => true | _ => false)
  | _ => false

/-- Whether a decoded document is well-typed for the round-trip statement:
a dict whose `sentiment_score` is a JSON integer (so `int()` is the
identity on it) and whose `decision_type` is present and truthy (so it is
not re-derived from the advice field). -/
def wellTypedDoc (fs : List (String × JValue)) : Bool :=
  (match pyDictGet fs "sentiment_score" with
   | some (.num _) => true
   | _ => false) &&
  jTruthy (pyDictGetD fs "decision_type" (.str ""))

/-- Every message the provider oracle raises with is non-empty. -/
def Oracle.msgsNonempty (o : Oracle) : Prop :=
  (∀ mdl i m, o.gemini mdl i = .exn m → m ≠ "") ∧
  (∀ mdl i m, o.openai mdl i = .exn m → m ≠ "")

/-- The configuration with all defaults (src/config.py defaults; no OpenAI
settings). -/
def defaultConfig : AppConfig := {}

/-- A configuration with `GEMINI_MAX_RETRIES=4`, for the concrete cascade
runs. -/
def cfgFour : AppConfig := { geminiMaxRetries := 4 }

/-- A freshly initialised analyzer with a working Gemini primary model and
no OpenAI client. -/
def primaryState : AnalyzerState :=
  { hasModel := true, currentModelName := "gemini-3-flash-preview",
    usingFallback := false, useOpenai := false, hasOpenaiClient := false }

/-- A concrete analysis context. -/
def ctxMoutai : AnalysisContext := { code := some "600519", stockName := some "贵州茅台" }

/-- A provider world that always raises a rate-limit error. -/
def rateLimitOracle : Oracle :=
  { gemini := fun _ _ => .exn "429 Resource has been exhausted (check quota)."
    openai := fun _ _ => .exn "429"
    switchOk := true
    openaiCtorOk := true }

/-- A provider world that always raises with an empty message
(`str(e) == ''`, e.g. `raise ValueError()`). -/
def emptyMsgOracle : Oracle :=
  { gemini := fun _ _ => .exn ""
    openai := fun _ _ => .exn ""
    switchOk := true
    openaiCtorOk := true }

/-- A provider world that always raises with the non-empty message
"boom". -/
def boomOracle : Oracle :=
  { gemini := fun _ _ => .exn "boom"
    openai := fun _ _ => .exn "boom"
    switchOk := true
    openaiCtorOk := true }

/-- When the strict/repair decode yields nothing, `_parse_response` falls
through to the heuristic text fallback. -/
theorem parseResponse_fallback_of_decode_none {raw c n : String}
    (h : decodedDoc raw = none) :
    parseResponse raw c n = .ok (parseTextResponse raw c n) := by
  unfold parseResponse
  unfold decodedDoc at h
  cases he : extractJsonStr raw with
  | none => rfl
  | some js =>
    rw [he] at h
    have h' : pyJsonLoads (fixJsonString js) = none := h
    show (match pyJsonLoads (fixJsonString js) with
          | some data => buildResult data c n
          | none => Except.ok (parseTextResponse raw c n))
        = Except.ok (parseTextResponse raw c n)
    rw [h']

/-- C4.  For every attempt index `i ≥ 1` the delay computed before the
`(i+1)`-th attempt is `min(cap, base_delay * 2^(i-1))` with cap 60 in both
the Gemini and the OpenAI retry loops, and for a non-negative base delay it
is monotonically non-decreasing in the attempt index (hence non-decreasing
until it reaches the cap, and constant afterwards). -/
theorem c4_backoff_formula_monotone (base : ℚ) (i j : Nat)
    (hb : 0 ≤ base) (hi : 1 ≤ i) (hij : i ≤ j) :
    geminiBackoff base i = min 60 (base * 2 ^ (i - 1)) ∧
    openaiBackoff base i = min 60 (base * 2 ^ (i - 1)) ∧
    geminiBackoff base i ≤ geminiBackoff base j ∧
    openaiBackoff base i ≤ openaiBackoff base j := by
  have hmono : base * 2 ^ (i - 1) ≤ base * 2 ^ (j - 1) := by
    apply mul_le_mul_of_nonneg_left _ hb
    exact pow_le_pow_right (by norm_num) (by omega)
  refine ⟨min_comm _ _, min_comm _ _, ?_, ?_⟩ <;>
    exact min_le_min hmono le_rfl

theorem c4_witness :
    geminiBackoff 5 1 = min 60 (5 * 2 ^ (1 - 1)) ∧
    openaiBackoff 5 1 = min 60 (5 * 2 ^ (1 - 1)) ∧
    geminiBackoff 5 1 ≤ geminiBackoff 5 3 ∧
    openaiBackoff 5 1 ≤ openaiBackoff 5 3 :=
  c4_backoff_formula_monotone 5 1 3 (by decide) (by decide) (by decide)

/-- C3, counterexample.  The claim says every `AnalysisResult` produced by
any analyzer path has `sentiment_score ∈ [0, 100]` "including responses
whose decoded sentiment_score field lies outside that range"; but
`_parse_response` copies the decoded value without clamping: the response
`{"sentiment_score": 150}` parses successfully to a result whose score is
150. -/
theorem c3_counterexample :
    (okResult (parseResponse "\x7b\"sentiment_score\": 150\x7d" "600519" "贵州茅台")).map
        (fun r => r.sentiment_score) = some 150 ∧
    ¬ ((150 : Int) ≤ 100) := by
  constructor
  · rfl
  · decide

/-- C3, amended.  The heuristic text fallback always scores 35, 50 or 65,
and both degraded results score 50 — all within `[0, 100]`; but the
structured-decode path returns exactly the `int(...)`-coerced decoded
`sentiment_score` with no clamping, so its score is in range only when the
decoded value is. -/
theorem c3_score_ranges :
    (∀ raw c n, (parseTextResponse raw c n).sentiment_score = 35 ∨
      (parseTextResponse raw c n).sentiment_score = 50 ∨
      (parseTextResponse raw c n).sentiment_score = 65) ∧
    (∀ c n m, (exceptionResult c n m).sentiment_score = 50) ∧
    (∀ c n, (unavailableResult c n).sentiment_score = 50) ∧
    (∀ fs c n, (okResult (buildResult (.obj fs) c n)).map (fun r => r.sentiment_score)
      = pyInt (pyDictGetD fs "sentiment_score" (.num 50))) := by
  refine ⟨?_, fun _ _ _ => rfl, fun _ _ => rfl, ?_⟩
  · intro raw c n
    simp only [parseTextResponse]
    split_ifs <;> simp
  · intro fs c n
    show Option.map (fun r => r.sentiment_score)
        (okResult
          (match pyInt (pyDictGetD fs "sentiment_score" (.num 50)) with
           | some score => Except.ok (mkParsedResult fs c n score)
           | none => Except.error "invalid literal for int() on sentiment_score"))
        = pyInt (pyDictGetD fs "sentiment_score" (.num 50))
    cases h : pyInt (pyDictGetD fs "sentiment_score" (.num 50)) with
    | none => rfl
    | some score => rfl

/-- C2, counterexample.  The claim says the parser never raises for any raw
response text; but the `except` clause of `_parse_response` catches only
`json.JSONDecodeError`, so for the valid-JSON response
`{"sentiment_score": "high"}` the `int('high')` coercion raises a
`ValueError` that propagates out of the parser. -/
theorem c2_counterexample :
    isParseError (parseResponse "\x7b\"sentiment_score\": \"high\"\x7d" "600519" "贵州茅台")
      = true := by rfl

/-- C2, amended.  The parser absorbs every failure of the strict or repair
decoding stages by falling through to the heuristic text fallback, and it
raises only in one case: a successfully decoded document whose
`sentiment_score` field does not survive `int(...)` coercion (then the
`ValueError`/`TypeError` propagates past the `except json.JSONDecodeError`
clause, to be caught by `analyze`'s catch-all). -/
theorem c2_parser_error_only_on_score_coercion (raw c n : String)
    (h : ∀ d, decodedDoc raw = some d → scoreCoercible d = true) :
    isParseError (parseResponse raw c n) = false := by
  unfold parseResponse
  cases he : extractJsonStr raw with
  | none => rfl
  | some js =>
    show isParseError
        (match pyJsonLoads (fixJsonString js) with
         | some data => buildResult data c n
         | none => Except.ok (parseTextResponse raw c n)) = false
    cases hl : pyJsonLoads (fixJsonString js) with
    | none => rfl
    | some data =>
      have hd : decodedDoc raw = some data := by
        unfold decodedDoc
        rw [he]
        exact hl
      have hc := h data hd
      cases data with
      | obj fs =>
        have hc' : (pyInt (pyDictGetD fs "sentiment_score" (.num 50))).isSome = true := hc
        show isParseError
            (match pyInt (pyDictGetD fs "sentiment_score" (.num 50)) with
             | some score => Except.ok (mkParsedResult fs c n score)
             | none => Except.error "invalid literal for int() on sentiment_score") = false
        cases hp : pyInt (pyDictGetD fs "sentiment_score" (.num 50)) with
        | none => rw [hp] at hc'; simp at hc'
        | some score => rfl
      | null => simp [scoreCoercible] at hc
      | bool b => simp [scoreCoercible] at hc
      | num m => simp [scoreCoercible] at hc
      | str s => simp [scoreCoercible] at hc
      | arr l => simp [scoreCoercible] at hc

theorem c2_witness :
    isParseError (parseResponse "分析失败，纯文本回复" "600519" "贵州茅台") = false :=
  c2_parser_error_only_on_score_coercion _ _ _
    (fun d hd => by
      rw [show decodedDoc "分析失败，纯文本回复" = none from rfl] at hd
      exact Option.noConfusion hd)

/-- C9.  For every raw text with no decodable JSON, exactly three positive
("buy/bullish"-class) keywords and zero negative ("sell/bearish"-class)
keywords, the parser routes to the heuristic fallback and returns
decision_type "buy", operation_advice "买入" (the buy category) and
confidence_level "低" (low). -/
theorem c9_buy_fallback (raw c n : String)
    (hd : decodedDoc raw = none)
    (hp : positiveCount raw = 3) (hn : negativeCount raw = 0) :
    parseResponse raw c n = .ok (parseTextResponse raw c n) ∧
    (parseTextResponse raw c n).decision_type = .str "buy" ∧
    (parseTextResponse raw c n).operation_advice = .str "买入" ∧
    (parseTextResponse raw c n).confidence_level = .str "低" := by
  refine ⟨parseResponse_fallback_of_decode_none hd, ?_, ?_, rfl⟩ <;>
    simp [parseTextResponse, hp, hn]

theorem c9_witness :
    parseResponse "buy bullish 上涨" "600519" "贵州茅台"
      = .ok (parseTextResponse "buy bullish 上涨" "600519" "贵州茅台") ∧
    (parseTextResponse "buy bullish 上涨" "600519" "贵州茅台").decision_type = .str "buy" ∧
    (parseTextResponse "buy bullish 上涨" "600519" "贵州茅台").operation_advice = .str "买入" ∧
    (parseTextResponse "buy bullish 上涨" "600519" "贵州茅台").confidence_level = .str "低" :=
  c9_buy_fallback "buy bullish 上涨" "600519" "贵州茅台" rfl rfl rfl

/-- C10, counterexample.  The claim says every fallback result's
analysis_summary is a prefix of the raw text; but for the empty raw text —
which is routed to the fallback (`find('{')` fails) — the summary is the
fixed placeholder `'无分析结果'`, not a prefix of `""`. -/
theorem c10_counterexample :
    parseResponse "" "600519" "X" = .ok (parseTextResponse "" "600519" "X") ∧
    (parseTextResponse "" "600519" "X").analysis_summary = .str "无分析结果" ∧
    "无分析结果".toList.isPrefixOf "".toList = false := by
  exact ⟨rfl, rfl, rfl⟩

/-- C10, amended.  Every raw text routed to the heuristic fallback yields
success=True with error_message=None, a sentiment_score in {35, 50, 65},
decision_type/operation_advice agreeing under the fixed mapping
(buy/买入, sell/卖出, hold/持有), and — for nonempty raw text — an
analysis_summary equal to the first at-most-500 characters of the raw
text; the empty raw text instead gets the fixed placeholder
(`c10_counterexample`). -/
theorem c10_fallback_fields (raw c n : String)
    (hd : decodedDoc raw = none) (hne : raw ≠ "") :
    parseResponse raw c n = .ok (parseTextResponse raw c n) ∧
    (parseTextResponse raw c n).success = true ∧
    (parseTextResponse raw c n).error_message = none ∧
    ((parseTextResponse raw c n).sentiment_score = 35 ∨
     (parseTextResponse raw c n).sentiment_score = 50 ∨
     (parseTextResponse raw c n).sentiment_score = 65) ∧
    (((parseTextResponse raw c n).decision_type = .str "buy" ∧
        (parseTextResponse raw c n).operation_advice = .str "买入") ∨
     ((parseTextResponse raw c n).decision_type = .str "sell" ∧
        (parseTextResponse raw c n).operation_advice = .str "卖出") ∨
     ((parseTextResponse raw c n).decision_type = .str "hold" ∧
        (parseTextResponse raw c n).operation_advice = .str "持有")) ∧
    (parseTextResponse raw c n).analysis_summary
      = .str (String.mk (raw.toList.take 500)) ∧
    (∃ t, raw.toList = raw.toList.take 500 ++ t) ∧
    (raw.toList.take 500).length ≤ 500 := by
  refine ⟨parseResponse_fallback_of_decode_none hd, rfl, rfl, ?_, ?_, ?_, ?_, ?_⟩
  · simp only [parseTextResponse]
    split_ifs <;> simp
  · simp only [parseTextResponse]
    split_ifs <;> simp
  · simp only [parseTextResponse]
    split_ifs with h1 h2 h2 <;> first | rfl | exact absurd h1 hne | exact absurd h2 hne
  · exact ⟨raw.toList.drop 500, (List.take_append_drop 500 raw.toList).symm⟩
  · exact List.length_take_le 500 raw.toList

theorem c10_witness :
    parseResponse "无法生成结构化结论" "600519" "X"
      = .ok (parseTextResponse "无法生成结构化结论" "600519" "X") ∧
    (parseTextResponse "无法生成结构化结论" "600519" "X").success = true ∧
    (parseTextResponse "无法生成结构化结论" "600519" "X").error_message = none ∧
    ((parseTextResponse "无法生成结构化结论" "600519" "X").sentiment_score = 35 ∨
     (parseTextResponse "无法生成结构化结论" "600519" "X").sentiment_score = 50 ∨
     (parseTextResponse "无法生成结构化结论" "600519" "X").sentiment_score = 65) ∧
    (((parseTextResponse "无法生成结构化结论" "600519" "X").decision_type = .str "buy" ∧
        (parseTextResponse "无法生成结构化结论" "600519" "X").operation_advice = .str "买入") ∨
     ((parseTextResponse "无法生成结构化结论" "600519" "X").decision_type = .str "sell" ∧
        (parseTextResponse "无法生成结构化结论" "600519" "X").operation_advice = .str "卖出") ∨
     ((parseTextResponse "无法生成结构化结论" "600519" "X").decision_type = .str "hold" ∧
        (parseTextResponse "无法生成结构化结论" "600519" "X").operation_advice = .str "持有")) ∧
    (parseTextResponse "无法生成结构化结论" "600519" "X").analysis_summary
      = .str (String.mk ("无法生成结构化结论".toList.take 500)) ∧
    (∃ t, "无法生成结构化结论".toList = "无法生成结构化结论".toList.take 500 ++ t) ∧
    ("无法生成结构化结论".toList.take 500).length ≤ 500 :=
  c10_fallback_fields "无法生成结构化结论" "600519" "X" rfl (by decide)

/-- C7, counterexample.  The claim says the strict-extraction stage alters
no field value of a well-formed document; but `_fix_json_string` runs
`replace('True', 'true')` over the whole JSON text — string values
included — before decoding.  The well-formed document
`{"analysis_summary": "True breakout"}` (shown well-formed by decoding its
exact text) comes back with the altered field value "true breakout". -/
theorem c7_counterexample :
    pyJsonLoads "\x7b\"analysis_summary\": \"True breakout\"\x7d"
      = some (.obj [("analysis_summary", .str "True breakout")]) ∧
    (okResult (parseResponse "\x7b\"analysis_summary\": \"True breakout\"\x7d" "600519" "X")).map
        (fun r => r.analysis_summary) = some (.str "true breakout") ∧
    "true breakout" ≠ "True breakout" := by
  refine ⟨rfl, rfl, ?_⟩
  decide

/-- C7, amended.  Field-for-field identity holds at the decoded-document
level: for every well-typed document the structured branch succeeds and
copies every field unaltered (missing optional fields get the source's
defaults; the nested dashboard document is passed through as-is).  It fails
at the raw-text level because the pre-decode textual fixes may rewrite
string values containing `True`/`False` or comment-like or
trailing-separator-like character sequences (`c7_counterexample`). -/
theorem c7_extraction_identity (fs : List (String × JValue)) (c n : String)
    (h : wellTypedDoc fs = true) :
    ∃ r, buildResult (.obj fs) c n = .ok r ∧
    .num r.sentiment_score = pyDictGetD fs "sentiment_score" (.num 50) ∧
    r.trend_prediction = pyDictGetD fs "trend_prediction" (.str "震荡") ∧
    r.operation_advice = pyDictGetD fs "operation_advice" (.str "持有") ∧
    r.decision_type = pyDictGetD fs "decision_type" (.str "") ∧
    r.confidence_level = pyDictGetD fs "confidence_level" (.str "中") ∧
    r.dashboard = (match pyDictGet fs "dashboard" with
                   | some .null => none
                   | some v => some v
                   | none => none) ∧
    r.trend_analysis = pyDictGetD fs "trend_analysis" (.str "") ∧
    r.short_term_outlook = pyDictGetD fs "short_term_outlook" (.str "") ∧
    r.medium_term_outlook = pyDictGetD fs "medium_term_outlook" (.str "") ∧
    r.technical_analysis = pyDictGetD fs "technical_analysis" (.str "") ∧
    r.ma_analysis = pyDictGetD fs "ma_analysis" (.str "") ∧
    r.volume_analysis = pyDictGetD fs "volume_analysis" (.str "") ∧
    r.pattern_analysis = pyDictGetD fs "pattern_analysis" (.str "") ∧
    r.fundamental_analysis = pyDictGetD fs "fundamental_analysis" (.str "") ∧
    r.sector_position = pyDictGetD fs "sector_position" (.str "") ∧
    r.company_highlights = pyDictGetD fs "company_highlights" (.str "") ∧
    r.news_summary = pyDictGetD fs "news_summary" (.str "") ∧
    r.market_sentiment = pyDictGetD fs "market_sentiment" (.str "") ∧
    r.hot_topics = pyDictGetD fs "hot_topics" (.str "") ∧
    r.analysis_summary = pyDictGetD fs "analysis_summary" (.str "分析完成") ∧
    r.key_points = pyDictGetD fs "key_points" (.str "") ∧
    r.risk_warning = pyDictGetD fs "risk_warning" (.str "") ∧
    r.buy_reason = pyDictGetD fs "buy_reason" (.str "") ∧
    r.search_performed = pyDictGetD fs "search_performed" (.bool false) ∧
    r.data_sources = pyDictGetD fs "data_sources" (.str "技术面数据") ∧
    r.success = true := by
  unfold wellTypedDoc at h
  rw [Bool.and_eq_true] at h
  obtain ⟨hs, hdec⟩ := h
  rcases hget : pyDictGet fs "sentiment_score" with _ | v
  · rw [hget] at hs; simp at hs
  rcases v with _ | b | m | s' | l | fs'
  all_goals rw [hget] at hs
  case num =>
    have hD : pyDictGetD fs "sentiment_score" (.num 50) = .num m := by
      unfold pyDictGetD; rw [hget]; rfl
    have hint : pyInt (pyDictGetD fs "sentiment_score" (.num 50)) = some m := by
      rw [hD]; rfl
    refine ⟨mkParsedResult fs c n m, ?_, ?_⟩
    · show (match pyInt (pyDictGetD fs "sentiment_score" (.num 50)) with
            | some score => Except.ok (mkParsedResult fs c n score)
            | none => Except.error "invalid literal for int() on sentiment_score")
          = .ok (mkParsedResult fs c n m)
      rw [hint]
    · refine ⟨by rw [hD]; rfl, rfl, rfl, ?_, rfl, rfl, rfl, rfl, rfl, rfl, rfl, rfl,
        rfl, rfl, rfl, rfl, rfl, rfl, rfl, rfl, rfl, rfl, rfl, rfl, rfl, rfl⟩
      show (if jTruthy (pyDictGetD fs "decision_type" (.str "")) then
              pyDictGetD fs "decision_type" (.str "")
            else if adviceIn (pyDictGetD fs "operation_advice" (.str "持有")) buyAdvices
              then .str "buy"
            else if adviceIn (pyDictGetD fs "operation_advice" (.str "持有")) sellAdvices
              then .str "sell"
            else .str "hold")
          = pyDictGetD fs "decision_type" (.str "")
      rw [hdec]
      simp
  all_goals simp at hs

theorem c7_witness :
    ∃ r, buildResult
        (.obj [("sentiment_score", .num 72), ("decision_type", .str "buy"),
               ("operation_advice", .str "买入"), ("trend_prediction", .str "看多"),
               ("dashboard", .obj [("core_conclusion", .obj [])])]) "600519" "贵州茅台"
        = .ok r ∧
    .num r.sentiment_score = pyDictGetD
        [("sentiment_score", .num 72), ("decision_type", .str "buy"),
         ("operation_advice", .str "买入"), ("trend_prediction", .str "看多"),
         ("dashboard", .obj [("core_conclusion", .obj [])])] "sentiment_score" (.num 50) ∧
    r.trend_prediction = pyDictGetD
        [("sentiment_score", .num 72), ("decision_type", .str "buy"),
         ("operation_advice", .str "买入"), ("trend_prediction", .str "看多"),
         ("dashboard", .obj [("core_conclusion", .obj [])])] "trend_prediction" (.str "震荡") ∧
    r.operation_advice = pyDictGetD
        [("sentiment_score", .num 72), ("decision_type", .str "buy"),
         ("operation_advice", .str "买入"), ("trend_prediction", .str "看多"),
         ("dashboard", .obj [("core_conclusion", .obj [])])] "operation_advice" (.str "持有") ∧
    r.decision_type = pyDictGetD
        [("sentiment_score", .num 72), ("decision_type", .str "buy"),
         ("operation_advice", .str "买入"), ("trend_prediction", .str "看多"),
         ("dashboard", .obj [("core_conclusion", .obj [])])] "decision_type" (.str "") ∧
    r.confidence_level = pyDictGetD
        [("sentiment_score", .num 72), ("decision_type", .str "buy"),
         ("operation_advice", .str "买入"), ("trend_prediction", .str "看多"),
         ("dashboard", .obj [("core_conclusion", .obj [])])] "confidence_level" (.str "中") ∧
    r.dashboard = (match pyDictGet
        [("sentiment_score", .num 72), ("decision_type", .str "buy"),
         ("operation_advice", .str "买入"), ("trend_prediction", .str "看多"),
         ("dashboard", .obj [("core_conclusion", .obj [])])] "dashboard" with
                   | some .null => none
                   | some v => some v
                   | none => none) ∧
    r.trend_analysis = pyDictGetD
        [("sentiment_score", .num 72), ("decision_type", .str "buy"),
         ("operation_advice", .str "买入"), ("trend_prediction", .str "看多"),
         ("dashboard", .obj [("core_conclusion", .obj [])])] "trend_analysis" (.str "") ∧
    r.short_term_outlook = pyDictGetD
        [("sentiment_score", .num 72), ("decision_type", .str "buy"),
         ("operation_advice", .str "买入"), ("trend_prediction", .str "看多"),
         ("dashboard", .obj [("core_conclusion", .obj [])])] "short_term_outlook" (.str "") ∧
    r.medium_term_outlook = pyDictGetD
        [("sentiment_score", .num 72), ("decision_type", .str "buy"),
         ("operation_advice", .str "买入"), ("trend_prediction", .str "看多"),
         ("dashboard", .obj [("core_conclusion", .obj [])])] "medium_term_outlook" (.str "") ∧
    r.technical_analysis = pyDictGetD
        [("sentiment_score", .num 72), ("decision_type", .str "buy"),
         ("operation_advice", .str "买入"), ("trend_prediction", .str "看多"),
         ("dashboard", .obj [("core_conclusion", .obj [])])] "technical_analysis" (.str "") ∧
    r.ma_analysis = pyDictGetD
        [("sentiment_score", .num 72), ("decision_type", .str "buy"),
         ("operation_advice", .str "买入"), ("trend_prediction", .str "看多"),
         ("dashboard", .obj [("core_conclusion", .obj [])])] "ma_analysis" (.str "") ∧
    r.volume_analysis = pyDictGetD
        [("sentiment_score", .num 72), ("decision_type", .str "buy"),
         ("operation_advice", .str "买入"), ("trend_prediction", .str "看多"),
         ("dashboard", .obj [("core_conclusion", .obj [])])] "volume_analysis" (.str "") ∧
    r.pattern_analysis = pyDictGetD
        [("sentiment_score", .num 72), ("decision_type", .str "buy"),
         ("operation_advice", .str "买入"), ("trend_prediction", .str "看多"),
         ("dashboard", .obj [("core_conclusion", .obj [])])] "pattern_analysis" (.str "") ∧
    r.fundamental_analysis = pyDictGetD
        [("sentiment_score", .num 72), ("decision_type", .str "buy"),
         ("operation_advice", .str "买入"), ("trend_prediction", .str "看多"),
         ("dashboard", .obj [("core_conclusion", .obj [])])] "fundamental_analysis" (.str "") ∧
    r.sector_position = pyDictGetD
        [("sentiment_score", .num 72), ("decision_type", .str "buy"),
         ("operation_advice", .str "买入"), ("trend_prediction", .str "看多"),
         ("dashboard", .obj [("core_conclusion", .obj [])])] "sector_position" (.str "") ∧
    r.company_highlights = pyDictGetD
        [("sentiment_score", .num 72), ("decision_type", .str "buy"),
         ("operation_advice", .str "买入"), ("trend_prediction", .str "看多"),
         ("dashboard", .obj [("core_conclusion", .obj [])])] "company_highlights" (.str "") ∧
    r.news_summary = pyDictGetD
        [("sentiment_score", .num 72), ("decision_type", .str "buy"),
         ("operation_advice", .str "买入"), ("trend_prediction", .str "看多"),
         ("dashboard", .obj [("core_conclusion", .obj [])])] "news_summary" (.str "") ∧
    r.market_sentiment = pyDictGetD
        [("sentiment_score", .num 72), ("decision_type", .str "buy"),
         ("operation_advice", .str "买入"), ("trend_prediction", .str "看多"),
         ("dashboard", .obj [("core_conclusion", .obj [])])] "market_sentiment" (.str "") ∧
    r.hot_topics = pyDictGetD
        [("sentiment_score", .num 72), ("decision_type", .str "buy"),
         ("operation_advice", .str "买入"), ("trend_prediction", .str "看多"),
         ("dashboard", .obj [("core_conclusion", .obj [])])] "hot_topics" (.str "") ∧
    r.analysis_summary = pyDictGetD
        [("sentiment_score", .num 72), ("decision_type", .str "buy"),
         ("operation_advice", .str "买入"), ("trend_prediction", .str "看多"),
         ("dashboard", .obj [("core_conclusion", .obj [])])] "analysis_summary" (.str "分析完成") ∧
    r.key_points = pyDictGetD
        [("sentiment_score", .num 72), ("decision_type", .str "buy"),
         ("operation_advice", .str "买入"), ("trend_prediction", .str "看多"),
         ("dashboard", .obj [("core_conclusion", .obj [])])] "key_points" (.str "") ∧
    r.risk_warning = pyDictGetD
        [("sentiment_score", .num 72), ("decision_type", .str "buy"),
         ("operation_advice", .str "买入"), ("trend_prediction", .str "看多"),
         ("dashboard", .obj [("core_conclusion", .obj [])])] "risk_warning" (.str "") ∧
    r.buy_reason = pyDictGetD
        [("sentiment_score", .num 72), ("decision_type", .str "buy"),
         ("operation_advice", .str "买入"), ("trend_prediction", .str "看多"),
         ("dashboard", .obj [("core_conclusion", .obj [])])] "buy_reason" (.str "") ∧
    r.search_performed = pyDictGetD
        [("sentiment_score", .num 72), ("decision_type", .str "buy"),
         ("operation_advice", .str "买入"), ("trend_prediction", .str "看多"),
         ("dashboard", .obj [("core_conclusion", .obj [])])] "search_performed" (.bool false) ∧
    r.data_sources = pyDictGetD
        [("sentiment_score", .num 72), ("decision_type", .str "buy"),
         ("operation_advice", .str "买入"), ("trend_prediction", .str "看多"),
         ("dashboard", .obj [("core_conclusion", .obj [])])] "data_sources" (.str "技术面数据") ∧
    r.success = true :=
  c7_extraction_identity
    [("sentiment_score", .num 72), ("decision_type", .str "buy"),
     ("operation_advice", .str "买入"), ("trend_prediction", .str "看多"),
     ("dashboard", .obj [("core_conclusion", .obj [])])] "600519" "贵州茅台" (by decide)

/-- C8, counterexample.  The claim says the dashboard field is either
absent or a well-formed nested structure, with corrupt or incomplete
dashboards rejected; but `_parse_response` stores
`data.get('dashboard', None)` without any validation: the response
`{"dashboard": {"foo": 1}}` yields a present dashboard that has none of the
four required sections. -/
theorem c8_counterexample :
    (okResult (parseResponse "\x7b\"dashboard\": \x7b\"foo\": 1\x7d\x7d" "600519" "X")).map
        (fun r => r.dashboard) = some (some (.obj [("foo", .num 1)])) ∧
    specDashboardWellFormed (.obj [("foo", .num 1)]) = false := by
  exact ⟨rfl, rfl⟩

/-- C8, amended.  The parser performs no dashboard validation at all: in
every successfully built result the dashboard field is exactly the decoded
document's `dashboard` value (absent only when the key is absent or JSON
null), so corrupt or incomplete dashboards are stored as-is rather than
rejected. -/
theorem c8_dashboard_passthrough (fs : List (String × JValue)) (c n : String)
    (r : AnalysisResult) (h : buildResult (.obj fs) c n = .ok r) :
    r.dashboard = (match pyDictGet fs "dashboard" with
                   | some .null => none
                   | some v => some v
                   | none => none) := by
  have h' : (match pyInt (pyDictGetD fs "sentiment_score" (.num 50)) with
             | some score => Except.ok (mkParsedResult fs c n score)
             | none =>
               (Except.error "invalid literal for int() on sentiment_score" :
                 Except String AnalysisResult)) = .ok r := h
  cases hp : pyInt (pyDictGetD fs "sentiment_score" (.num 50)) with
  | none => rw [hp] at h'; exact absurd h' (by simp)
  | some score =>
    rw [hp] at h'
    have hr : mkParsedResult fs c n score = r := by
      have := h'
      injection this
    rw [← hr]
    rfl

theorem c8_witness :
    (mkParsedResult [("dashboard", .num 42)] "600519" "X" 50).dashboard
      = (match pyDictGet [("dashboard", .num 42)] "dashboard" with
         | some .null => none
         | some v => some v
         | none => none) :=
  c8_dashboard_passthrough [("dashboard", .num 42)] "600519" "X"
    (mkParsedResult [("dashboard", .num 42)] "600519" "X" 50) rfl

theorem callOpenaiGo_error_ne {o : Oracle}
    (ho : ∀ mdl i m, o.openai mdl i = .exn m → m ≠ "") (maxR : Nat) (model : String) :
    ∀ fuel attempt e, callOpenaiGo maxR o model fuel attempt = .error e → e ≠ "" := by
  intro fuel
  induction fuel with
  | zero =>
    intro attempt e h
    simp only [callOpenaiGo, Except.error.injEq] at h
    rw [← h]
    decide
  | succ fuel ih =>
    intro attempt e h
    simp only [callOpenaiGo] at h
    split at h
    · split at h
      · exact absurd h (by simp)
      · split at h
        · simp only [Except.error.injEq] at h
          rw [← h]
          decide
        · exact ih (attempt + 1) e h
    · next m hoc =>
        split at h
        · simp only [Except.error.injEq] at h
          rw [← h]
          exact ho model attempt m hoc
        · exact ih (attempt + 1) e h

theorem afterGeminiLoop_result_error_ne {cfg : AppConfig} {o : Oracle}
    (ho : ∀ mdl i m, o.openai mdl i = .exn m → m ≠ "")
    (s : AnalyzerState) (lastError : Option String) (tr : List (String × Nat))
    (hle : ∀ m, lastError = some m → m ≠ "") :
    ∀ e, (afterGeminiLoop cfg o s lastError tr).result = .error e → e ≠ "" := by
  intro e h
  unfold afterGeminiLoop at h
  split at h
  · cases hc : callOpenaiApi cfg o s.currentModelName with
    | ok t => rw [hc] at h; exact absurd h (by simp)
    | error oe =>
      rw [hc] at h
      simp only [Except.error.injEq] at h
      cases hl : lastError with
      | none =>
        rw [hl] at h
        rw [← h]
        exact callOpenaiGo_error_ne ho cfg.geminiMaxRetries s.currentModelName _ _ _ hc
      | some m =>
        rw [hl] at h
        rw [← h]
        exact hle m hl
  · split at h
    · split at h
      · cases hc : callOpenaiApi cfg o (initOpenaiFallback cfg o s).currentModelName with
        | ok t => rw [hc] at h; exact absurd h (by simp)
        | error oe =>
          rw [hc] at h
          simp only [Except.error.injEq] at h
          cases hl : lastError with
          | none =>
            rw [hl] at h
            rw [← h]
            exact callOpenaiGo_error_ne ho cfg.geminiMaxRetries _ _ _ _ hc
          | some m =>
            rw [hl] at h
            rw [← h]
            exact hle m hl
      · simp only [Except.error.injEq] at h
        cases hl : lastError with
        | none => rw [hl] at h; rw [← h]; decide
        | some m => rw [hl] at h; rw [← h]; exact hle m hl
    · simp only [Except.error.injEq] at h
      cases hl : lastError with
      | none => rw [hl] at h; rw [← h]; decide
      | some m => rw [hl] at h; rw [← h]; exact hle m hl

theorem geminiGo_result_error_ne {cfg : AppConfig} {o : Oracle}
    (hg : ∀ mdl i m, o.gemini mdl i = .exn m → m ≠ "")
    (ho : ∀ mdl i m, o.openai mdl i = .exn m → m ≠ "") :
    ∀ fuel attempt s tried lastError tr,
      (∀ m, lastError = some m → m ≠ "") →
      ∀ e, (geminiGo cfg o fuel attempt s tried lastError tr).result = .error e → e ≠ "" := by
  intro fuel
  induction fuel with
  | zero =>
    intro attempt s tried lastError tr hle e h
    exact afterGeminiLoop_result_error_ne ho s lastError tr hle e h
  | succ fuel ih =>
    intro attempt s tried lastError tr hle e h
    simp only [geminiGo] at h
    have hmne : ∀ m : String,
        (if s.hasModel then o.gemini s.currentModelName attempt
         else .exn "'NoneType' object has no attribute 'generate_content'") = .exn m →
        m ≠ "" := by
      intro m hm'
      split at hm'
      · exact hg _ _ _ hm'
      · injection hm' with hm'
        rw [← hm']
        decide
    split at h
    · split at h
      · exact absurd h (by simp)
      · refine ih _ _ _ _ _ ?_ e h
        intro m hm'
        injection hm' with hm'
        rw [← hm']
        decide
    · next m hoc =>
        have hm' : m ≠ "" := hmne m hoc
        split at h
        · refine ih _ _ _ _ _ ?_ e h
          intro m' hm''
          injection hm'' with hm''
          rw [← hm'']
          exact hm'
        · refine ih _ _ _ _ _ ?_ e h
          intro m' hm''
          injection hm'' with hm''
          rw [← hm'']
          exact hm'

theorem callApiWithRetry_result_error_ne {cfg : AppConfig} {o : Oracle}
    (hmsgs : o.msgsNonempty) (s : AnalyzerState) :
    ∀ e, (callApiWithRetry cfg o s).result = .error e → e ≠ "" := by
  intro e h
  obtain ⟨hg, ho⟩ := hmsgs
  unfold callApiWithRetry at h
  split at h
  · exact callOpenaiGo_error_ne ho cfg.geminiMaxRetries s.currentModelName _ _ _ h
  · exact geminiGo_result_error_ne hg ho _ _ _ _ _ _ (by intro m hm; exact absurd hm (by simp)) e h

theorem parseResponse_error_ne (raw c n : String) :
    ∀ e, parseResponse raw c n = .error e → e ≠ "" := by
  intro e h
  unfold parseResponse at h
  cases he : extractJsonStr raw with
  | none => rw [he] at h; exact absurd h (by simp)
  | some js =>
    rw [he] at h
    have h' : (match pyJsonLoads (fixJsonString js) with
               | some data => buildResult data c n
               | none =>
                 (Except.ok (parseTextResponse raw c n) :
                   Except String AnalysisResult)) = .error e := h
    cases hl : pyJsonLoads (fixJsonString js) with
    | none => rw [hl] at h'; exact absurd h' (by simp)
    | some data =>
      rw [hl] at h'
      cases data with
      | obj fs =>
        have h'' : (match pyInt (pyDictGetD fs "sentiment_score" (.num 50)) with
                    | some score => Except.ok (mkParsedResult fs c n score)
                    | none =>
                      (Except.error "invalid literal for int() on sentiment_score" :
                        Except String AnalysisResult)) = .error e := h'
        cases hp : pyInt (pyDictGetD fs "sentiment_score" (.num 50)) with
        | none =>
          rw [hp] at h''
          simp only [Except.error.injEq] at h''
          rw [← h'']
          decide
        | some score => rw [hp] at h''; exact absurd h'' (by simp)
      | null => simp only [buildResult, Except.error.injEq] at h'; rw [← h']; decide
      | bool b => simp only [buildResult, Except.error.injEq] at h'; rw [← h']; decide
      | num m => simp only [buildResult, Except.error.injEq] at h'; rw [← h']; decide
      | str s => simp only [buildResult, Except.error.injEq] at h'; rw [← h']; decide
      | arr l => simp only [buildResult, Except.error.injEq] at h'; rw [← h']; decide

theorem parseResponse_ok_success (raw c n : String) (r : AnalysisResult)
    (h : parseResponse raw c n = .ok r) : r.success = true := by
  unfold parseResponse at h
  cases he : extractJsonStr raw with
  | none =>
    rw [he] at h
    injection h with h
    rw [← h]
    rfl
  | some js =>
    rw [he] at h
    have h' : (match pyJsonLoads (fixJsonString js) with
               | some data => buildResult data c n
               | none =>
                 (Except.ok (parseTextResponse raw c n) :
                   Except String AnalysisResult)) = .ok r := h
    cases hl : pyJsonLoads (fixJsonString js) with
    | none =>
      rw [hl] at h'
      injection h' with h'
      rw [← h']
      rfl
    | some data =>
      rw [hl] at h'
      cases data with
      | obj fs =>
        have h'' : (match pyInt (pyDictGetD fs "sentiment_score" (.num 50)) with
                    | some score => Except.ok (mkParsedResult fs c n score)
                    | none =>
                      (Except.error "invalid literal for int() on sentiment_score" :
                        Except String AnalysisResult)) = .ok r := h'
        cases hp : pyInt (pyDictGetD fs "sentiment_score" (.num 50)) with
        | none => rw [hp] at h''; exact absurd h'' (by simp)
        | some score =>
          rw [hp] at h''
          injection h'' with h''
          rw [← h'']
          rfl
      | null => exact absurd h' (by simp [buildResult])
      | bool b => exact absurd h' (by simp [buildResult])
      | num m => exact absurd h' (by simp [buildResult])
      | str s => exact absurd h' (by simp [buildResult])
      | arr l => exact absurd h' (by simp [buildResult])

/-- C1, amended.  `analyze` is total — every provider/parse outcome,
including provider exhaustion, empty responses and garbage text, yields an
`AnalysisResult` with a boolean success flag (totality is by construction:
every exception path of the source is reified into the model and caught).
Whenever success is false, `error_message` is `some` of the rendering of
the causing error; it is non-empty whenever the messages the providers
raise with are non-empty (`c1_counterexample` shows an empty provider
message surfacing verbatim, so the unconditional claim fails). -/
theorem analyze_unavailable_eq (cfg : AppConfig) (o : Oracle) (s : AnalyzerState)
    (ctx : AnalysisContext) (news : Option String) (hav : isAvailable s = false) :
    analyze cfg o s ctx news
      = (unavailableResult (ctx.code.getD "Unknown")
          (resolveName ctx (ctx.code.getD "Unknown")), s) := by
  unfold analyze
  rw [hav]
  simp

theorem analyze_ok_eq (cfg : AppConfig) (o : Oracle) (s : AnalyzerState)
    (ctx : AnalysisContext) (news : Option String)
    (text : String) (s' : AnalyzerState) (tr : List (String × Nat)) (r : AnalysisResult)
    (hav : isAvailable s = true)
    (hrun : callApiWithRetry cfg o s = ⟨.ok text, s', tr⟩)
    (hp : parseResponse text (ctx.code.getD "Unknown")
        (resolveName ctx (ctx.code.getD "Unknown")) = .ok r) :
    analyze cfg o s ctx news
      = ({ r with raw_response := some text
                  search_performed := .bool (news.getD "" ≠ "") }, s') := by
  unfold analyze
  rw [hav, hrun]
  simp only [not_true_eq_false, if_false, Bool.false_eq_true, reduceIte]
  rw [hp]

theorem analyze_parse_error_eq (cfg : AppConfig) (o : Oracle) (s : AnalyzerState)
    (ctx : AnalysisContext) (news : Option String)
    (text : String) (s' : AnalyzerState) (tr : List (String × Nat)) (m : String)
    (hav : isAvailable s = true)
    (hrun : callApiWithRetry cfg o s = ⟨.ok text, s', tr⟩)
    (hp : parseResponse text (ctx.code.getD "Unknown")
        (resolveName ctx (ctx.code.getD "Unknown")) = .error m) :
    analyze cfg o s ctx news
      = (exceptionResult (ctx.code.getD "Unknown")
          (resolveName ctx (ctx.code.getD "Unknown")) m, s') := by
  unfold analyze
  rw [hav, hrun]
  simp only [not_true_eq_false, if_false, Bool.false_eq_true, reduceIte]
  rw [hp]

theorem analyze_run_error_eq (cfg : AppConfig) (o : Oracle) (s : AnalyzerState)
    (ctx : AnalysisContext) (news : Option String)
    (s' : AnalyzerState) (tr : List (String × Nat)) (m : String)
    (hav : isAvailable s = true)
    (hrun : callApiWithRetry cfg o s = ⟨.error m, s', tr⟩) :
    analyze cfg o s ctx news
      = (exceptionResult (ctx.code.getD "Unknown")
          (resolveName ctx (ctx.code.getD "Unknown")) m, s') := by
  unfold analyze
  rw [hav, hrun]
  simp

theorem c1_error_message_nonempty (cfg : AppConfig) (o : Oracle) (s : AnalyzerState)
    (ctx : AnalysisContext) (news : Option String)
    (hmsgs : o.msgsNonempty)
    (hfail : (analyze cfg o s ctx news).1.success = false) :
    ∃ m, (analyze cfg o s ctx news).1.error_message = some m ∧ m ≠ "" := by
  by_cases hav : isAvailable s = true
  · rcases hrun : callApiWithRetry cfg o s with ⟨res, s', tr⟩
    cases res with
    | ok text =>
      cases hp : parseResponse text (ctx.code.getD "Unknown")
          (resolveName ctx (ctx.code.getD "Unknown")) with
      | ok r =>
        have heq := analyze_ok_eq cfg o s ctx news text s' tr r hav hrun hp
        rw [heq] at hfail
        have : r.success = true := parseResponse_ok_success _ _ _ r hp
        simp only [this] at hfail
        exact absurd hfail (by simp)
      | error m =>
        have heq := analyze_parse_error_eq cfg o s ctx news text s' tr m hav hrun hp
        rw [heq]
        exact ⟨m, rfl, parseResponse_error_ne _ _ _ m hp⟩
    | error m =>
      have heq := analyze_run_error_eq cfg o s ctx news s' tr m hav hrun
      rw [heq]
      refine ⟨m, rfl, ?_⟩
      have : (callApiWithRetry cfg o s).result = .error m := by rw [hrun]
      exact callApiWithRetry_result_error_ne hmsgs s m this
  · have hav' : isAvailable s = false := by
      cases h' : isAvailable s
      · rfl
      · exact absurd h' hav
    have heq := analyze_unavailable_eq cfg o s ctx news hav'
    rw [heq]
    exact ⟨"Gemini API Key 未配置", rfl, by decide⟩

/-- C1, counterexample.  The claim says that whenever success is false the
error_message is a non-empty string, for every provider outcome; but when
every provider attempt raises with an empty message (`str(e) == ''`),
`analyze` returns success=False with `error_message = str(e) = ''`. -/
theorem c1_counterexample :
    (analyze defaultConfig emptyMsgOracle primaryState ctxMoutai none).1.success = false ∧
    (analyze defaultConfig emptyMsgOracle primaryState ctxMoutai none).1.error_message
      = some "" := by
  exact ⟨rfl, rfl⟩

theorem c1_witness :
    ∃ m, (analyze defaultConfig boomOracle primaryState ctxMoutai none).1.error_message
      = some m ∧ m ≠ "" :=
  c1_error_message_nonempty defaultConfig boomOracle primaryState ctxMoutai none
    ⟨fun _ _ m h => by injection h with h; rw [← h]; decide,
     fun _ _ m h => by injection h with h; rw [← h]; decide⟩
    rfl

/-- The code after the Gemini loop never records further attempts in the
trace. -/
theorem afterGeminiLoop_trace (cfg : AppConfig) (o : Oracle) (s : AnalyzerState)
    (lastError : Option String) (tr : List (String × Nat)) :
    (afterGeminiLoop cfg o s lastError tr).trace = tr := by
  unfold afterGeminiLoop
  split
  · cases callOpenaiApi cfg o s.currentModelName <;> rfl
  · split
    · split
      · cases callOpenaiApi cfg o (initOpenaiFallback cfg o s).currentModelName <;> rfl
      · rfl
    · rfl

/-- With the fallback already tried, the loop keeps the current model for
the whole remaining budget (here under an always-raising provider). -/
theorem geminiGo_trace_triedTrue {cfg : AppConfig} {o : Oracle}
    (hexn : ∀ mdl i, ∃ m, o.gemini mdl i = .exn m) :
    ∀ fuel attempt s lastError tr, s.hasModel = true →
      (geminiGo cfg o fuel attempt s true lastError tr).trace
        = tr ++ (List.range' attempt fuel).map (fun i => (s.currentModelName, i)) := by
  intro fuel
  induction fuel with
  | zero =>
    intro attempt s le tr hm
    rw [show geminiGo cfg o 0 attempt s true le tr = afterGeminiLoop cfg o s le tr from rfl]
    rw [afterGeminiLoop_trace]
    simp
  | succ fuel ih =>
    intro attempt s le tr hm
    obtain ⟨m, hoc⟩ := hexn s.currentModelName attempt
    simp only [geminiGo, hm, if_true, hoc]
    rw [if_neg (by simp)]
    rw [ih (attempt + 1) s (some m) (tr ++ [(s.currentModelName, attempt)]) hm]
    rw [List.range'_succ, List.map_cons]
    simp

/-- With the fallback not yet tried, a working switch, and a provider that
always raises rate-limited errors, the loop runs the current model through
attempt `max_retries // 2` and the same-family fallback for the remaining
attempts, never resetting the attempt counter. -/
theorem geminiGo_trace_triedFalse {cfg : AppConfig} {o : Oracle}
    (hrl : ∀ mdl i, ∃ m, o.gemini mdl i = .exn m ∧ isRateLimited m = true)
    (hsw : o.switchOk = true) :
    ∀ fuel attempt s lastError tr, s.hasModel = true →
      (geminiGo cfg o fuel attempt s false lastError tr).trace
        = tr ++ (List.range' attempt fuel).map
            (fun i => (if i ≤ max attempt (cfg.geminiMaxRetries / 2)
                       then s.currentModelName else cfg.geminiModelFallback, i)) := by
  intro fuel
  induction fuel with
  | zero =>
    intro attempt s le tr hm
    rw [show geminiGo cfg o 0 attempt s false le tr = afterGeminiLoop cfg o s le tr from rfl]
    rw [afterGeminiLoop_trace]
    simp
  | succ fuel ih =>
    intro attempt s le tr hm
    obtain ⟨m, hoc, hrlm⟩ := hrl s.currentModelName attempt
    simp only [geminiGo, hm, if_true, hoc]
    by_cases hhalf : cfg.geminiMaxRetries / 2 ≤ attempt
    · rw [if_pos ⟨hrlm, hhalf, trivial⟩]
      simp only [switchToFallbackModel, hsw, if_true, Bool.false_or]
      rw [geminiGo_trace_triedTrue (fun mdl i => ⟨(hrl mdl i).choose, (hrl mdl i).choose_spec.1⟩)
          fuel (attempt + 1)
          { s with hasModel := true, currentModelName := cfg.geminiModelFallback,
                   usingFallback := true }
          (some m) (tr ++ [(s.currentModelName, attempt)]) rfl]
      simp only [Nat.max_eq_left hhalf]
      rw [List.range'_succ, List.map_cons, if_pos (Nat.le_refl attempt)]
      have hcongr : (List.range' (attempt + 1) fuel).map
            (fun i => ((if i ≤ attempt then s.currentModelName
                        else cfg.geminiModelFallback), i))
          = (List.range' (attempt + 1) fuel).map
              (fun i => (cfg.geminiModelFallback, i)) := by
        apply List.map_congr_left
        intro i hi
        rw [List.mem_range'_1] at hi
        show ((if i ≤ attempt then s.currentModelName else cfg.geminiModelFallback), i)
            = (cfg.geminiModelFallback, i)
        rw [if_neg (by omega)]
      rw [hcongr]
      simp
    · rw [if_neg (by intro hcond; exact hhalf hcond.2.1)]
      rw [ih (attempt + 1) s (some m) (tr ++ [(s.currentModelName, attempt)]) hm]
      have h1 : max attempt (cfg.geminiMaxRetries / 2) = cfg.geminiMaxRetries / 2 :=
        Nat.max_eq_right (by omega)
      have h2 : max (attempt + 1) (cfg.geminiMaxRetries / 2) = cfg.geminiMaxRetries / 2 :=
        Nat.max_eq_right (by omega)
      simp only [h1, h2]
      rw [List.range'_succ, List.map_cons, if_pos (by omega)]
      simp

/-- C5, counterexample.  The claim says that on promotion the
attempts-on-target counter is reset to 0 so the fallback model receives a
fresh retry budget; but the loop variable is never reset: with
`max_retries = 4` and an always-rate-limited provider, the switch happens
after the failure at attempt index `4 // 2 = 2`, and the fallback model
receives exactly one attempt (index 3) — not a fresh budget of 4.  (The
trace lists the (model, attempt-index) of every call.) -/
theorem c5_counterexample :
    (callApiWithRetry cfgFour rateLimitOracle primaryState).trace
      = [("gemini-3-flash-preview", 0), ("gemini-3-flash-preview", 1),
         ("gemini-3-flash-preview", 2), ("gemini-2.5-flash", 3)] ∧
    ((callApiWithRetry cfgFour rateLimitOracle primaryState).trace.filter
        (fun p => p.1 = "gemini-2.5-flash")).length = 1 ∧
    cfgFour.geminiMaxRetries = 4 := by
  exact ⟨rfl, rfl, rfl⟩

/-- C5, amended.  Under an always-rate-limited provider with a working
fallback constructor, starting from a not-yet-fallback state: the loop
switches to the same-family fallback exactly once — after the rate-limited
failure at attempt index `max_retries // 2` (the first index at or past
half the budget) — and the attempt counter is NOT reset: the attempt
indices continue `0, 1, ..., max_retries - 1`, so the fallback model only
receives the remaining `max_retries - (max_retries // 2) - 1` attempts
rather than a fresh budget.  (Promotion additionally requires the failure
to be classified rate-limited — the source checks the switch only inside
the `is_rate_limit` branch.) -/
theorem c5_promotion_no_reset (cfg : AppConfig) (o : Oracle) (s : AnalyzerState)
    (hm : s.hasModel = true) (huo : s.useOpenai = false) (huf : s.usingFallback = false)
    (hsw : o.switchOk = true)
    (hrl : ∀ mdl i, ∃ m, o.gemini mdl i = .exn m ∧ isRateLimited m = true) :
    (callApiWithRetry cfg o s).trace
      = (List.range cfg.geminiMaxRetries).map
          (fun i => (if i ≤ cfg.geminiMaxRetries / 2 then s.currentModelName
                     else cfg.geminiModelFallback, i)) := by
  unfold callApiWithRetry
  rw [huo]
  simp only [Bool.false_eq_true, if_false, reduceIte]
  rw [huf]
  rw [geminiGo_trace_triedFalse hrl hsw cfg.geminiMaxRetries 0 s none [] hm]
  rw [List.range_eq_range']
  simp [Nat.max_eq_right (Nat.zero_le (cfg.geminiMaxRetries / 2))]

theorem c5_witness :
    (callApiWithRetry cfgFour rateLimitOracle primaryState).trace
      = (List.range cfgFour.geminiMaxRetries).map
          (fun i => (if i ≤ cfgFour.geminiMaxRetries / 2
                     then primaryState.currentModelName
                     else cfgFour.geminiModelFallback, i)) :=
  c5_promotion_no_reset cfgFour rateLimitOracle primaryState rfl rfl rfl rfl
    (fun mdl i => ⟨"429 Resource has been exhausted (check quota).", rfl, by decide⟩)

/-- Every Gemini-loop run only appends to the incoming trace, and when at
least one attempt remains, the first appended entry is the current model at
the incoming attempt index. -/
theorem geminiGo_trace_extend (cfg : AppConfig) (o : Oracle) :
    ∀ fuel attempt s tried lastError tr, ∃ rest,
      (geminiGo cfg o fuel attempt s tried lastError tr).trace = tr ++ rest ∧
      (1 ≤ fuel → rest.head? = some (s.currentModelName, attempt)) := by
  intro fuel
  induction fuel with
  | zero =>
    intro attempt s tried le tr
    refine ⟨[], ?_, ?_⟩
    · rw [show geminiGo cfg o 0 attempt s tried le tr = afterGeminiLoop cfg o s le tr from rfl]
      rw [afterGeminiLoop_trace]
      simp
    · omega
  | succ fuel ih =>
    intro attempt s tried le tr
    cases hoc : (if s.hasModel then o.gemini s.currentModelName attempt
                 else .exn "'NoneType' object has no attribute 'generate_content'") with
    | text t =>
      by_cases ht : t = ""
      · subst ht
        obtain ⟨rest, htr, _⟩ := ih (attempt + 1) s tried (some "Gemini 返回空响应")
          (tr ++ [(s.currentModelName, attempt)])
        refine ⟨(s.currentModelName, attempt) :: rest, ?_, fun _ => rfl⟩
        simp only [geminiGo, hoc]
        rw [if_neg (by simp)]
        rw [htr]
        simp
      · refine ⟨[(s.currentModelName, attempt)], ?_, fun _ => rfl⟩
        simp only [geminiGo, hoc]
        rw [if_pos ht]
    | exn m =>
      by_cases hc : isRateLimited m ∧ attempt ≥ cfg.geminiMaxRetries / 2 ∧ tried = false
      · obtain ⟨rest, htr, _⟩ := ih (attempt + 1) (switchToFallbackModel cfg o s).1
          (tried || (switchToFallbackModel cfg o s).2) (some m)
          (tr ++ [(s.currentModelName, attempt)])
        refine ⟨(s.currentModelName, attempt) :: rest, ?_, fun _ => rfl⟩
        simp only [geminiGo, hoc]
        rw [if_pos hc]
        rw [htr]
        simp
      · obtain ⟨rest, htr, _⟩ := ih (attempt + 1) s tried (some m)
          (tr ++ [(s.currentModelName, attempt)])
        refine ⟨(s.currentModelName, attempt) :: rest, ?_, fun _ => rfl⟩
        simp only [geminiGo, hoc]
        rw [if_neg hc]
        rw [htr]
        simp

/-- C6, counterexample.  The claim says analyze()'s provider-selection
state is restored after the call; but `_switch_to_fallback_model` mutates
the instance in place and nothing restores it: after one rate-limited
analyze() run the instance is left on the fallback model with
`_using_fallback = True`, which the next call starts from. -/
theorem c6_counterexample :
    primaryState.usingFallback = false ∧
    primaryState.currentModelName = "gemini-3-flash-preview" ∧
    (analyze cfgFour rateLimitOracle primaryState ctxMoutai none).2.usingFallback = true ∧
    (analyze cfgFour rateLimitOracle primaryState ctxMoutai none).2.currentModelName
      = "gemini-2.5-flash" := by
  exact ⟨rfl, rfl, rfl, rfl⟩

/-- C6, amended.  Cascade state is mutable instance state shared across
calls: `analyze` hands back exactly the state its retry run left behind
(no restore), while only the attempts-on-target counter is re-initialised
per invocation — a fresh run always starts at attempt index 0, querying
whatever current model the persisted state holds. -/
theorem c6_state_persistence (cfg : AppConfig) (o : Oracle) (s : AnalyzerState)
    (ctx : AnalysisContext) (news : Option String)
    (hm : s.hasModel = true) (huo : s.useOpenai = false)
    (h1 : 1 ≤ cfg.geminiMaxRetries) :
    (analyze cfg o s ctx news).2 = (callApiWithRetry cfg o s).state ∧
    (callApiWithRetry cfg o s).trace.head? = some (s.currentModelName, 0) := by
  constructor
  · have hav : isAvailable s = true := by
      unfold isAvailable
      rw [hm]
      rfl
    rcases hrun : callApiWithRetry cfg o s with ⟨res, s', tr⟩
    cases res with
    | ok text =>
      cases hp : parseResponse text (ctx.code.getD "Unknown")
          (resolveName ctx (ctx.code.getD "Unknown")) with
      | ok r =>
        rw [analyze_ok_eq cfg o s ctx news text s' tr r hav hrun hp]
      | error m =>
        rw [analyze_parse_error_eq cfg o s ctx news text s' tr m hav hrun hp]
    | error m =>
      rw [analyze_run_error_eq cfg o s ctx news s' tr m hav hrun]
  · unfold callApiWithRetry
    rw [huo]
    simp only [Bool.false_eq_true, if_false, reduceIte]
    obtain ⟨rest, htr, hhead⟩ :=
      geminiGo_trace_extend cfg o cfg.geminiMaxRetries 0 s s.usingFallback none []
    rw [htr]
    simp only [List.nil_append]
    exact hhead h1

theorem c6_witness :
    (analyze cfgFour rateLimitOracle primaryState ctxMoutai none).2
      = (callApiWithRetry cfgFour rateLimitOracle primaryState).state ∧
    (callApiWithRetry cfgFour rateLimitOracle primaryState).trace.head?
      = some (primaryState.currentModelName, 0) :=
  c6_state_persistence cfgFour rateLimitOracle primaryState ctxMoutai none rfl rfl
    (by decide)
